import Mathlib

/-!
VisionGPT front end: a shallow embedding of the React components.

The development embeds the event handlers and effects of `App.jsx`,
`VideoFeed.jsx` and `ChatInterface.jsx` as pure functions on explicit
component state, and a step function for the composed page.

Conventions of the embedding:
* a `useState` cell is a record field, a setter call is a record update;
* values read from the environment (`new Date().toLocaleTimeString()`,
  `Math.random()`) are extra arguments of the handler that reads them;
* a closure handed to `setTimeout` is a record holding the variables it
  captured, and firing it is a function of that record;
* JavaScript strings are `String`, array lengths are `Nat`;
* the number returned by `Math.random()` is a binary64 value in `[0, 1)`, kept
  as a mantissa and a binary scale, and its product with 5 is rounded to
  binary64 (nearest, ties to even) as the `*` of JavaScript does.
-/

namespace VisionGPT

/-! ## Data model -/

/-- Rectangle of a detection (`bbox: { x, y, width, height }`). -/
structure BBox where
  x : Nat
  y : Nat
  width : Nat
  height : Nat
deriving DecidableEq, Repr

/-- Detection record built in the interval callback of `VideoFeed.jsx`. -/
structure Detection where
  label : String
  confidence : ℚ
  bbox : BBox
  color : String
deriving DecidableEq, Repr

/-- Chat message object `{ role, content, timestamp }` of `App.jsx`. -/
structure Message where
  role : String
  content : String
  timestamp : String
deriving DecidableEq, Repr

/-- The five `useState` cells of `App` (App.jsx lines 45-55). -/
structure AppState where
  isStreaming : Bool
  messages : List Message
  detections : List Detection
  isConnected : Bool
  fps : Int
deriving DecidableEq, Repr

/-- Closure passed to `setTimeout` by `handleNewMessage`: it captures the
`detections` binding of the render in which the handler ran. -/
structure ReplyTimer where
  detections : List Detection
deriving DecidableEq, Repr

/-! ## App.jsx -/

/-- Greeting text of the initial assistant message (App.jsx line 49). -/
def greeting : String :=
  "Hello! I can see your video feed. Ask me anything about what's in the camera view!"

/-- Initial values of the `useState` cells; `now` is the clock reading taken
for the greeting's timestamp. -/
def App.init (now : String) : AppState :=
  { isStreaming := false
    messages := [{ role := "assistant", content := greeting, timestamp := now }]
    detections := []
    isConnected := false
    fps := 0 }

/-- Body of `handleToggleStream` (App.jsx lines 57-60). -/
def App.handleToggleStream (s : AppState) : AppState :=
  { s with isStreaming := !s.isStreaming, isConnected := !s.isStreaming }

/-- Template literal of the assistant reply (App.jsx line 73); `n` is the value
of `detections.length` interpolated into it. -/
def replyContent (n : Nat) : String :=
  "I can see " ++ toString n ++
    " objects in the frame. The main items are: person, laptop, and cup."

/-- Body of `handleNewMessage` (App.jsx lines 62-77): the synchronous
`setMessages` update, and the closure scheduled with `setTimeout`. -/
def App.handleNewMessage (s : AppState) (message now : String) : AppState × ReplyTimer :=
  ({ s with messages := s.messages ++
      [{ role := "user", content := message, timestamp := now }] },
   { detections := s.detections })

/-- Run of the `setTimeout` callback (App.jsx lines 70-76) on the state current
when it fires; `now` is the clock reading at that moment. -/
def ReplyTimer.fire (t : ReplyTimer) (s : AppState) (now : String) : AppState :=
  { s with messages := s.messages ++
      [{ role := "assistant", content := replyContent t.detections.length,
         timestamp := now }] }

/-- Body of `handleDetections` (App.jsx lines 79-81). -/
def App.handleDetections (s : AppState) (newDetections : List Detection) : AppState :=
  { s with detections := newDetections }

/-- The `setFps` setter handed to `VideoFeed` as `onFpsUpdate` (App.jsx line 109). -/
def App.setFps (s : AppState) (n : Int) : AppState :=
  { s with fps := n }

/-- Value of the `detections` prop of `StatusIndicator` (App.jsx line 98). -/
def App.statusDetections (s : AppState) : Nat := s.detections.length

/-- Value of the `detectionCount` prop of `ControlPanel` (App.jsx line 115). -/
def App.detectionCount (s : AppState) : Nat := s.detections.length

/-! ## VideoFeed.jsx -/

/-- State owned by `VideoFeed`: its two `useState` cells (lines 8-9) and the
bookkeeping of the detection effect: how many timers created by `setInterval`
have not been cleared, and whether the last run of the effect returned its
`clearInterval` cleanup. -/
structure FeedState where
  error : Option String
  mockDetections : List Detection
  liveIntervals : Nat
  cleanup : Bool
deriving DecidableEq, Repr

/-- The array literal `detections` of the interval callback (lines 20-39). -/
def VideoFeed.detections : List Detection :=
  [ { label := "person", confidence := 0.95,
      bbox := { x := 100, y := 80, width := 200, height := 300 }, color := "#3b82f6" },
    { label := "laptop", confidence := 0.87,
      bbox := { x := 350, y := 250, width := 180, height := 120 }, color := "#10b981" },
    { label := "cup", confidence := 0.78,
      bbox := { x := 500, y := 200, width := 60, height := 80 }, color := "#f59e0b" } ]

/-- A binary64 number `mant / 2 ^ shift`, the form of every value that
`Math.random()` can return. -/
structure Draw where
  mant : Nat
  shift : Nat
deriving DecidableEq, Repr

/-- The binary64 numbers of `[0, 1)`: zero, the subnormal numbers and the
normal numbers with exponent -1022, ..., -1 are the `mant / 2 ^ shift` with
`mant < 2 ^ 53` and `53 ≤ shift ≤ 1074`. -/
def Draw.valid (r : Draw) : Bool :=
  decide (r.mant < 2 ^ 53) && decide (53 ≤ r.shift) && decide (r.shift ≤ 1074)

/-- The number a draw stands for. -/
def Draw.value (r : Draw) : ℚ := (r.mant : ℚ) / 2 ^ r.shift

/-- The draw 0.5. -/
def Draw.half : Draw := { mant := 2 ^ 52, shift := 53 }

/-- The multiple of `2 ^ s` nearest to `n`, the one with an even quotient when
`n` is half way between two of them. -/
def roundShift (n s : Nat) : Nat :=
  if 2 * (n % 2 ^ s) < 2 ^ s then n / 2 ^ s * 2 ^ s
  else if 2 ^ s < 2 * (n % 2 ^ s) then (n / 2 ^ s + 1) * 2 ^ s
  else if n / 2 ^ s % 2 = 0 then n / 2 ^ s * 2 ^ s
  else (n / 2 ^ s + 1) * 2 ^ s

/-- Search for the number of bits of `n` beyond 53: halve until the number is
below `2 ^ 53`, at most `fuel` times. -/
def excessBitsAux : Nat → Nat → Nat
  | 0, _ => 0
  | fuel + 1, n => if n < 2 ^ 53 then 0 else excessBitsAux fuel (n / 2) + 1

/-- The number of bits of `n` beyond 53: the least `s` with
`n / 2 ^ s < 2 ^ 53`; `n` halvings are always enough. -/
def excessBits (n : Nat) : Nat := excessBitsAux n n

/-- Binary64 rounding of the significand `n`: the bits beyond the 53 that a
binary64 number holds are rounded away, to nearest, ties to even. -/
def round53 (n : Nat) : Nat := roundShift n (excessBits n)

/-- The expression `Math.floor(Math.random() * 5) + 25` (line 43), as a function
of the number `r` returned by `Math.random()`: the binary64 product
`round53 (mant * 5) / 2 ^ shift`, its floor, and 25 added. -/
def VideoFeed.mockFps (r : Draw) : Int :=
  ((round53 (r.mant * 5) / 2 ^ r.shift : Nat) : Int) + 25

/-- Cleanup returned by the previous run of the detection effect (line 46), if
that run returned one. -/
def VideoFeed.runCleanup (f : FeedState) : FeedState :=
  if f.cleanup then { f with liveIntervals := f.liveIntervals - 1, cleanup := false } else f

/-- Body of the detection effect (lines 12-47) for the current `isStreaming`. -/
def VideoFeed.effectBody (isStreaming : Bool) (f : FeedState) : FeedState :=
  if !isStreaming then { f with mockDetections := [], cleanup := false }
  else { f with liveIntervals := f.liveIntervals + 1, cleanup := true }

/-- A re-run of the detection effect after one of its dependencies changed:
the old cleanup, then the body. -/
def VideoFeed.detectionEffect (isStreaming : Bool) (f : FeedState) : FeedState :=
  VideoFeed.effectBody isStreaming (VideoFeed.runCleanup f)

/-- State of `VideoFeed` after mounting under `isStreaming`: the initial cells
and the first run of the detection effect. -/
def VideoFeed.init (isStreaming : Bool) : FeedState :=
  VideoFeed.effectBody isStreaming
    { error := none, mockDetections := [], liveIntervals := 0, cleanup := false }

/-- One run of the interval callback (lines 18-44) with random draw `r`:
`setMockDetections`, then `onDetections` and `onFpsUpdate` on the parent. -/
def VideoFeed.intervalCallback (r : Draw) (f : FeedState) (a : AppState) :
    FeedState × AppState :=
  ({ f with mockDetections := VideoFeed.detections },
   App.setFps (App.handleDetections a VideoFeed.detections) (VideoFeed.mockFps r))

/-- Body of `handleUserMedia` (lines 83-85). -/
def VideoFeed.handleUserMedia (f : FeedState) : FeedState :=
  { f with error := none }

/-- Text stored by `handleUserMediaError` (line 89). -/
def cameraErrorText : String := "Unable to access camera. Please check permissions."

/-- Body of `handleUserMediaError` (lines 87-90); `err` is only logged. -/
def VideoFeed.handleUserMediaError (_err : String) (f : FeedState) : FeedState :=
  { f with error := some cameraErrorText }

/-- JavaScript truthiness of the `error` cell (`null` or a string): `null` and
the empty string are falsy. -/
def truthy : Option String → Bool
  | none => false
  | some t => t != ""

/-- The three branches of the JSX returned by `VideoFeed` (lines 94-136). -/
inductive View where
  /-- The 'Camera is off' panel. -/
  | cameraOff
  /-- The 'Camera Error' panel, showing the error text. -/
  | cameraError (text : String)
  /-- The `Webcam` element with its canvas; `overlay` is the object count shown
  when `mockDetections.length > 0`. -/
  | webcam (overlay : Option Nat)
deriving DecidableEq, Repr

/-- The conditional rendering of `VideoFeed` (lines 94-136). -/
def VideoFeed.render (isStreaming : Bool) (f : FeedState) : View :=
  if !isStreaming then View.cameraOff
  else if truthy f.error then View.cameraError (f.error.getD "")
  else View.webcam
    (if f.mockDetections.length > 0 then some f.mockDetections.length else none)

/-! ## ChatInterface.jsx -/

/-- Code points removed by `String.prototype.trim`: ECMAScript WhiteSpace
(TAB, VT, FF, ZWNBSP and the Unicode space separators) and LineTerminator
(LF, CR, LS, PS). -/
def isWhiteSpace (c : Char) : Bool :=
  let n := c.toNat
  n == 0x09 || n == 0x0A || n == 0x0B || n == 0x0C || n == 0x0D || n == 0x20 ||
  n == 0xA0 || n == 0x1680 || (0x2000 ≤ n && n ≤ 0x200A) || n == 0x2028 ||
  n == 0x2029 || n == 0x202F || n == 0x205F || n == 0x3000 || n == 0xFEFF

/-- Leading and trailing white space removed from a list of characters. -/
def trimChars (cs : List Char) : List Char :=
  ((cs.dropWhile isWhiteSpace).reverse.dropWhile isWhiteSpace).reverse

/-- JavaScript `s.trim()`. -/
def jsTrim (s : String) : String := ⟨trimChars s.data⟩

/-- What a run of `handleSend` did: the arguments of its calls of
`onSendMessage`, in order, and the value of the `input` cell afterwards. -/
structure SendResult where
  calls : List String
  input : String
deriving DecidableEq, Repr

/-- Body of `handleSend` (ChatInterface.jsx lines 16-20). -/
def ChatInterface.handleSend (input : String) (isStreaming : Bool) : SendResult :=
  if jsTrim input == "" || !isStreaming then { calls := [], input := input }
  else { calls := [input], input := "" }

/-- What a run of `handleKeyPress` did: whether `e.preventDefault()` was
called, and the result of `handleSend` when it was invoked. -/
structure KeyResult where
  defaultPrevented : Bool
  send : Option SendResult
deriving DecidableEq, Repr

/-- Body of `handleKeyPress` (ChatInterface.jsx lines 22-27). -/
def ChatInterface.handleKeyPress (key : String) (shiftKey : Bool) (input : String)
    (isStreaming : Bool) : KeyResult :=
  if key == "Enter" && !shiftKey then
    { defaultPrevented := true, send := some (ChatInterface.handleSend input isStreaming) }
  else { defaultPrevented := false, send := none }

/-- The `disabled` prop of the send button (line 90). -/
def ChatInterface.sendDisabled (input : String) (isStreaming : Bool) : Bool :=
  jsTrim input == "" || !isStreaming

/-- The `disabled` prop of the textarea (line 84). -/
def ChatInterface.textareaDisabled (isStreaming : Bool) : Bool := !isStreaming

/-! ## Handler calls on `App` -/

/-- A call of one of the state-changing functions of `App`. -/
inductive AppCall where
  | handleToggleStream
  | handleNewMessage (message now : String)
  | timerFire (t : ReplyTimer) (now : String)
  | handleDetections (newDetections : List Detection)
  | setFps (n : Int)
deriving DecidableEq, Repr

/-- Effect of one call on the state of `App`. -/
def App.call (s : AppState) : AppCall → AppState
  | .handleToggleStream => App.handleToggleStream s
  | .handleNewMessage m now => (App.handleNewMessage s m now).1
  | .timerFire t now => t.fire s now
  | .handleDetections d => App.handleDetections s d
  | .setFps n => App.setFps s n

/-- State of `App` after a sequence of calls. -/
def App.calls (s : AppState) (cs : List AppCall) : AppState := cs.foldl App.call s

/-- The argument of a call, when it is a `handleDetections` call. -/
def AppCall.batch? : AppCall → Option (List Detection)
  | .handleDetections d => some d
  | _ => none

/-- The list passed to the most recent `handleDetections` call of a sequence
of calls, the empty list if there was none. -/
def lastBatch (cs : List AppCall) : List Detection :=
  ((cs.filterMap AppCall.batch?).getLast?).getD []

/-! ## The composed page -/

/-- State of the whole page: `App`, `VideoFeed`, the `input` cell of
`ChatInterface`, and the `setTimeout` closures that have not fired yet. -/
structure Page where
  app : AppState
  feed : FeedState
  input : String
  timers : List ReplyTimer
deriving DecidableEq, Repr

/-- Events of the page. -/
inductive Event where
  /-- Click on the button of `ControlPanel` (`onToggle`). -/
  | toggle
  /-- A live interval timer fires; `r` is the value of `Math.random()`. -/
  | tick (r : Draw)
  /-- The textarea's `onChange` with the new text. -/
  | change (value : String)
  /-- Click on the send button (`handleSend`). -/
  | clickSend (now : String)
  /-- The textarea's `onKeyDown` (`handleKeyPress`). -/
  | keyDown (key : String) (shiftKey : Bool) (now : String)
  /-- The pending timeout at position `i` fires. -/
  | timeout (i : Nat) (now : String)
  /-- The `Webcam` element reports a stream (`onUserMedia`). -/
  | userMedia
  /-- The `Webcam` element reports a failure (`onUserMediaError`). -/
  | userMediaError (err : String)
deriving DecidableEq, Repr

/-- The page after mounting. -/
def Page.init (now : String) : Page :=
  { app := App.init now, feed := VideoFeed.init false, input := "", timers := [] }

/-- A render of `App` creates a new `handleDetections` function, which is a
dependency of the detection effect of `VideoFeed`: the effect runs again. -/
def Page.rerender (p : Page) : Page :=
  { p with feed := VideoFeed.detectionEffect p.app.isStreaming p.feed }

/-- The `onSendMessage` prop of `ChatInterface` is `App.handleNewMessage`. -/
def Page.onSendMessage (now : String) (p : Page) (m : String) : Page :=
  { p with app := (App.handleNewMessage p.app m now).1
           timers := p.timers ++ [(App.handleNewMessage p.app m now).2] }

/-- The page after a run of `handleSend` with result `r`. -/
def Page.applySend (p : Page) (now : String) (r : SendResult) : Page :=
  let q := { r.calls.foldl (Page.onSendMessage now) p with input := r.input }
  if r.calls.isEmpty then q else q.rerender

/-- Whether the `Webcam` element is mounted. -/
def Page.webcamShown (p : Page) : Bool :=
  match VideoFeed.render p.app.isStreaming p.feed with
  | .webcam _ => true
  | _ => false

/-- One event of the page; `none` when the event cannot happen in `p`. -/
def Page.step (p : Page) : Event → Option Page
  | .toggle => some ({ p with app := App.handleToggleStream p.app }).rerender
  | .tick r =>
    if 0 < p.feed.liveIntervals ∧ r.valid = true then
      some ({ p with feed := (VideoFeed.intervalCallback r p.feed p.app).1
                     app := (VideoFeed.intervalCallback r p.feed p.app).2 }).rerender
    else none
  | .change value => some { p with input := value }
  | .clickSend now =>
    some (p.applySend now (ChatInterface.handleSend p.input p.app.isStreaming))
  | .keyDown key shiftKey now =>
    match (ChatInterface.handleKeyPress key shiftKey p.input p.app.isStreaming).send with
    | some r => some (p.applySend now r)
    | none => some p
  | .timeout i now =>
    match p.timers[i]? with
    | some t => some ({ p with app := t.fire p.app now, timers := p.timers.eraseIdx i }).rerender
    | none => none
  | .userMedia =>
    if p.webcamShown then some { p with feed := VideoFeed.handleUserMedia p.feed } else none
  | .userMediaError err =>
    if p.webcamShown then some { p with feed := VideoFeed.handleUserMediaError err p.feed }
    else none

/-- The page after a sequence of events; `none` when one of them cannot happen. -/
def Page.run (p : Page) : List Event → Option Page
  | [] => some p
  | e :: es => (p.step e).bind fun q => q.run es

/-- States of the page reachable from a mount. -/
def Reachable (p : Page) : Prop := ∃ now es, (Page.init now).run es = some p

/-- Whether an event is a tick of the interval. -/
def Event.isTick : Event → Bool
  | .tick _ => true
  | _ => false

/-- The detection effect is in step with the streaming flag: exactly one live
interval, with its cleanup registered, while streaming; none otherwise, and
then `mockDetections` is empty. -/
def Page.gated (p : Page) : Prop :=
  p.feed.cleanup = p.app.isStreaming ∧
  p.feed.liveIntervals = (if p.app.isStreaming then 1 else 0) ∧
  (p.app.isStreaming = false → p.feed.mockDetections = [])

/-- The page `p` with the streaming flag of `App` set to `b` and everything
else as it is. -/
def Page.withStreaming (p : Page) (b : Bool) : Page :=
  { p with app := { p.app with isStreaming := b } }

/-- Effect of a run of `handleSend` on the chat state of page `p`: whether
`onSendMessage` was called, the message list afterwards, the input text
afterwards. -/
def chatAfterSend (p : Page) (now : String) : Bool × List Message × String :=
  let r := ChatInterface.handleSend p.input p.app.isStreaming
  (!r.calls.isEmpty, (p.applySend now r).app.messages, (p.applySend now r).input)

/-- A page with input text "hi" and an empty message list. -/
def hiPage : Page :=
  { app := { isStreaming := false, messages := [], detections := [], isConnected := false,
             fps := 0 }
    feed := VideoFeed.init false, input := "hi", timers := [] }

/-- The page after mounting at time "t" and one click on the toggle button. -/
def streamingPage : Page :=
  ((Page.init "t").step Event.toggle).getD (Page.init "t")

/-- The streaming page after one tick of the interval with draw 0.5. -/
def tickedPage : Page :=
  (streamingPage.step (Event.tick Draw.half)).getD streamingPage

/-- The streaming page after the camera reported a failure. -/
def failedPage : Page :=
  (streamingPage.step (Event.userMediaError "NotAllowedError")).getD streamingPage

/-- The failed page after the camera was stopped and started again. -/
def restartedPage : Page :=
  (failedPage.run [Event.toggle, Event.toggle]).getD failedPage

end VisionGPT

namespace VisionGPT

/-! ## Lemmas on `trim` -/

theorem trimChars_eq_nil_iff (cs : List Char) :
    trimChars cs = [] ↔ ∀ c ∈ cs, isWhiteSpace c = true := by
  unfold trimChars
  rw [List.reverse_eq_nil_iff, List.dropWhile_eq_nil_iff]
  constructor
  · intro h
    by_contra hne
    have hd : cs.dropWhile isWhiteSpace ≠ [] := by
      rw [Ne, List.dropWhile_eq_nil_iff]; exact hne
    have hhead := List.head_dropWhile_not isWhiteSpace cs hd
    have hmem : (cs.dropWhile isWhiteSpace).head hd ∈ (cs.dropWhile isWhiteSpace).reverse :=
      List.mem_reverse.mpr (List.head_mem hd)
    have := h _ hmem
    simp [this] at hhead
  · intro h c hc
    have hnil : cs.dropWhile isWhiteSpace = [] := List.dropWhile_eq_nil_iff.mpr h
    rw [hnil] at hc
    simp at hc

theorem jsTrim_eq_empty_iff (s : String) :
    jsTrim s = "" ↔ ∀ c ∈ s.data, isWhiteSpace c = true := by
  rw [← trimChars_eq_nil_iff]
  unfold jsTrim
  constructor
  · intro h
    have := congrArg String.data h
    simpa using this
  · intro h
    rw [h]

theorem jsTrim_ne_empty_iff (s : String) :
    jsTrim s ≠ "" ↔ ∃ c ∈ s.data, isWhiteSpace c = false := by
  rw [Ne, jsTrim_eq_empty_iff]
  push_neg
  simp

theorem handleSend_blank (input : String) (b : Bool) (h : jsTrim input = "") :
    ChatInterface.handleSend input b = { calls := [], input := input } := by
  simp [ChatInterface.handleSend, h]

theorem handleSend_off (input : String) :
    ChatInterface.handleSend input false = { calls := [], input := input } := by
  simp [ChatInterface.handleSend]

theorem handleSend_on (input : String) (h : jsTrim input ≠ "") :
    ChatInterface.handleSend input true = { calls := [input], input := "" } := by
  simp [ChatInterface.handleSend, h]

theorem applySend_nil (p : Page) (now : String) :
    p.applySend now { calls := [], input := p.input } = p := by
  simp [Page.applySend]

/-! ## Lemmas on the page -/

theorem foldl_onSendMessage_frame (now : String) (ms : List String) (p : Page) :
    (ms.foldl (Page.onSendMessage now) p).feed = p.feed ∧
    (ms.foldl (Page.onSendMessage now) p).input = p.input ∧
    (ms.foldl (Page.onSendMessage now) p).app.isStreaming = p.app.isStreaming ∧
    (ms.foldl (Page.onSendMessage now) p).app.isConnected = p.app.isConnected ∧
    (ms.foldl (Page.onSendMessage now) p).app.detections = p.app.detections := by
  induction ms generalizing p with
  | nil => simp
  | cons m ms ih =>
    simp only [List.foldl_cons]
    obtain ⟨h1, h2, h3, h4, h5⟩ := ih (Page.onSendMessage now p m)
    exact ⟨h1, h2, h3, h4, h5⟩

theorem applySend_app_frame (p : Page) (now : String) (r : SendResult) :
    (p.applySend now r).app.isStreaming = p.app.isStreaming ∧
    (p.applySend now r).app.isConnected = p.app.isConnected ∧
    (p.applySend now r).app.detections = p.app.detections := by
  obtain ⟨_, _, h3, h4, h5⟩ := foldl_onSendMessage_frame now r.calls p
  unfold Page.applySend
  by_cases hc : r.calls.isEmpty = true <;> simp [hc, Page.rerender, h3, h4, h5]

theorem applySend_feed (p : Page) (now : String) (r : SendResult) :
    (p.applySend now r).feed = p.feed ∨
    (p.applySend now r).feed = VideoFeed.detectionEffect p.app.isStreaming p.feed := by
  obtain ⟨h1, _, h3, _, _⟩ := foldl_onSendMessage_frame now r.calls p
  unfold Page.applySend
  by_cases hc : r.calls.isEmpty = true
  · left; simp [hc, h1]
  · right; simp [hc, Page.rerender, h1, h3]

/-- A property that holds after mounting and is kept by every event holds in
every reachable state. -/
theorem reachable_induction (P : Page → Prop) (hinit : ∀ now, P (Page.init now))
    (hstep : ∀ p e q, P p → p.step e = some q → P q) :
    ∀ p, Reachable p → P p := by
  have hrun : ∀ es p q, P p → p.run es = some q → P q := by
    intro es
    induction es with
    | nil =>
      intro p q hp h
      simp only [Page.run, Option.some.injEq] at h
      exact h ▸ hp
    | cons e es ih =>
      intro p q hp h
      simp only [Page.run] at h
      cases hs : p.step e with
      | none => simp [hs] at h
      | some p' =>
        rw [hs] at h
        exact ih p' q (hstep p e p' hp hs) h
  intro p ⟨now, es, h⟩
  exact hrun es _ p (hinit now) h

theorem run_append (es₁ es₂ : List Event) (p : Page) :
    p.run (es₁ ++ es₂) = (p.run es₁).bind fun q => q.run es₂ := by
  induction es₁ generalizing p with
  | nil => simp [Page.run]
  | cons e es ih =>
    simp only [List.cons_append, Page.run]
    cases p.step e with
    | none => simp
    | some q => simp [ih]

theorem reachable_init (now : String) : Reachable (Page.init now) := ⟨now, [], rfl⟩

theorem reachable_step {p q : Page} (e : Event) (hp : Reachable p) (h : p.step e = some q) :
    Reachable q := by
  obtain ⟨now, es, hes⟩ := hp
  exact ⟨now, es ++ [e], by simp [run_append, hes, Page.run, h]⟩

/-- The detection effect re-establishes the gating, whatever the new flag. -/
theorem detectionEffect_gated (b b' : Bool) (f : FeedState) (hc : f.cleanup = b)
    (hl : f.liveIntervals = if b then 1 else 0) :
    (VideoFeed.detectionEffect b' f).cleanup = b' ∧
    (VideoFeed.detectionEffect b' f).liveIntervals = (if b' then 1 else 0) ∧
    (b' = false → (VideoFeed.detectionEffect b' f).mockDetections = []) ∧
    (VideoFeed.detectionEffect b' f).error = f.error := by
  cases b <;> cases b' <;>
    simp_all [VideoFeed.detectionEffect, VideoFeed.effectBody, VideoFeed.runCleanup]

theorem rerender_gated (p : Page) (b : Bool) (hc : p.feed.cleanup = b)
    (hl : p.feed.liveIntervals = if b then 1 else 0) : p.rerender.gated := by
  obtain ⟨h1, h2, h3, _⟩ := detectionEffect_gated b p.app.isStreaming p.feed hc hl
  exact ⟨h1, h2, h3⟩

theorem init_gated (now : String) : (Page.init now).gated := by
  simp [Page.gated, Page.init, App.init, VideoFeed.init, VideoFeed.effectBody]

theorem step_gated (p : Page) (e : Event) (q : Page) (hp : p.gated) (h : p.step e = some q) :
    q.gated := by
  obtain ⟨hc, hl, hm⟩ := hp
  cases e with
  | toggle =>
    simp only [Page.step, Option.some.injEq] at h
    subst h
    exact rerender_gated _ p.app.isStreaming hc hl
  | tick r =>
    simp only [Page.step] at h
    split_ifs at h
    simp only [Option.some.injEq] at h
    subst h
    exact rerender_gated _ p.app.isStreaming hc hl
  | change v =>
    simp only [Page.step, Option.some.injEq] at h
    subst h
    exact ⟨hc, hl, hm⟩
  | clickSend now =>
    simp only [Page.step, Option.some.injEq] at h
    subst h
    obtain ⟨hs, _, _⟩ := applySend_app_frame p now
      (ChatInterface.handleSend p.input p.app.isStreaming)
    rcases applySend_feed p now (ChatInterface.handleSend p.input p.app.isStreaming) with hf | hf
    · simp only [Page.gated, hf, hs]; exact ⟨hc, hl, hm⟩
    · obtain ⟨h1, h2, h3, _⟩ := detectionEffect_gated _ p.app.isStreaming p.feed hc hl
      simp only [Page.gated, hf, hs]; exact ⟨h1, h2, h3⟩
  | keyDown key shiftKey now =>
    simp only [Page.step] at h
    split at h
    · rename_i r _
      simp only [Option.some.injEq] at h
      subst h
      obtain ⟨hs, _, _⟩ := applySend_app_frame p now r
      rcases applySend_feed p now r with hf | hf
      · simp only [Page.gated, hf, hs]; exact ⟨hc, hl, hm⟩
      · obtain ⟨h1, h2, h3, _⟩ := detectionEffect_gated _ p.app.isStreaming p.feed hc hl
        simp only [Page.gated, hf, hs]; exact ⟨h1, h2, h3⟩
    · simp only [Option.some.injEq] at h
      subst h
      exact ⟨hc, hl, hm⟩
  | timeout i now =>
    simp only [Page.step] at h
    split at h
    · simp only [Option.some.injEq] at h
      subst h
      exact rerender_gated _ p.app.isStreaming hc hl
    · simp at h
  | userMedia =>
    simp only [Page.step] at h
    split_ifs at h
    simp only [Option.some.injEq] at h
    subst h
    exact ⟨hc, hl, hm⟩
  | userMediaError err =>
    simp only [Page.step] at h
    split_ifs at h
    simp only [Option.some.injEq] at h
    subst h
    exact ⟨hc, hl, hm⟩

theorem reachable_gated (p : Page) (hp : Reachable p) : p.gated :=
  reachable_induction Page.gated init_gated step_gated p hp

theorem step_connected (p : Page) (e : Event) (q : Page)
    (hp : p.app.isConnected = p.app.isStreaming) (h : p.step e = some q) :
    q.app.isConnected = q.app.isStreaming := by
  cases e with
  | toggle =>
    simp only [Page.step, Option.some.injEq] at h
    subst h
    simp [Page.rerender, App.handleToggleStream]
  | tick r =>
    simp only [Page.step] at h
    split_ifs at h
    simp only [Option.some.injEq] at h
    subst h
    simpa [Page.rerender, VideoFeed.intervalCallback, App.setFps, App.handleDetections] using hp
  | change v =>
    simp only [Page.step, Option.some.injEq] at h
    subst h
    exact hp
  | clickSend now =>
    simp only [Page.step, Option.some.injEq] at h
    subst h
    obtain ⟨hs, hk, _⟩ := applySend_app_frame p now
      (ChatInterface.handleSend p.input p.app.isStreaming)
    rw [hs, hk]; exact hp
  | keyDown key shiftKey now =>
    simp only [Page.step] at h
    split at h
    · rename_i r _
      simp only [Option.some.injEq] at h
      subst h
      obtain ⟨hs, hk, _⟩ := applySend_app_frame p now r
      rw [hs, hk]; exact hp
    · simp only [Option.some.injEq] at h
      subst h
      exact hp
  | timeout i now =>
    simp only [Page.step] at h
    split at h
    · simp only [Option.some.injEq] at h
      subst h
      simpa [Page.rerender, ReplyTimer.fire] using hp
    · simp at h
  | userMedia =>
    simp only [Page.step] at h
    split_ifs at h
    simp only [Option.some.injEq] at h
    subst h
    exact hp
  | userMediaError err =>
    simp only [Page.step] at h
    split_ifs at h
    simp only [Option.some.injEq] at h
    subst h
    exact hp

theorem calls_connected (cs : List AppCall) (s : AppState)
    (hs : s.isConnected = s.isStreaming) :
    (App.calls s cs).isConnected = (App.calls s cs).isStreaming := by
  induction cs generalizing s with
  | nil => exact hs
  | cons c cs ih =>
    simp only [App.calls, List.foldl_cons]
    apply ih
    cases c <;>
      simp [App.call, App.handleToggleStream, App.handleNewMessage, ReplyTimer.fire,
        App.handleDetections, App.setFps, hs]

theorem calls_detections (cs : List AppCall) (s : AppState) :
    (App.calls s cs).detections = ((cs.filterMap AppCall.batch?).getLast?).getD s.detections := by
  induction cs generalizing s with
  | nil => simp [App.calls]
  | cons c cs ih =>
    have hfold : App.calls s (c :: cs) = App.calls (App.call s c) cs := rfl
    rw [hfold, ih]
    cases c <;>
      simp [AppCall.batch?, App.call, App.handleToggleStream, App.handleNewMessage,
        ReplyTimer.fire, App.handleDetections, App.setFps, List.getLast?_cons]

theorem step_detections (p : Page) (e : Event) (q : Page) (h : p.step e = some q) :
    q.app.detections = if e.isTick = true then VideoFeed.detections else p.app.detections := by
  cases e with
  | toggle =>
    simp only [Page.step, Option.some.injEq] at h
    subst h
    simp [Page.rerender, App.handleToggleStream, Event.isTick]
  | tick r =>
    simp only [Page.step] at h
    split_ifs at h
    simp only [Option.some.injEq] at h
    subst h
    simp [Page.rerender, VideoFeed.intervalCallback, App.setFps, App.handleDetections,
      Event.isTick]
  | change v =>
    simp only [Page.step, Option.some.injEq] at h
    subst h
    simp [Event.isTick]
  | clickSend now =>
    simp only [Page.step, Option.some.injEq] at h
    subst h
    simp [Event.isTick, (applySend_app_frame p now _).2.2]
  | keyDown key shiftKey now =>
    simp only [Page.step] at h
    split at h
    · rename_i r _
      simp only [Option.some.injEq] at h
      subst h
      simp [Event.isTick, (applySend_app_frame p now r).2.2]
    · simp only [Option.some.injEq] at h
      subst h
      simp [Event.isTick]
  | timeout i now =>
    simp only [Page.step] at h
    split at h
    · simp only [Option.some.injEq] at h
      subst h
      simp [Page.rerender, ReplyTimer.fire, Event.isTick]
    · simp at h
  | userMedia =>
    simp only [Page.step] at h
    split_ifs at h
    simp only [Option.some.injEq] at h
    subst h
    simp [Event.isTick]
  | userMediaError err =>
    simp only [Page.step] at h
    split_ifs at h
    simp only [Option.some.injEq] at h
    subst h
    simp [Event.isTick]

theorem run_detections (es : List Event) (p q : Page) (h : p.run es = some q) :
    q.app.detections =
      if es.any Event.isTick = true then VideoFeed.detections else p.app.detections := by
  induction es generalizing p with
  | nil =>
    simp only [Page.run, Option.some.injEq] at h
    subst h
    simp
  | cons e es ih =>
    simp only [Page.run] at h
    cases hs : p.step e with
    | none => simp [hs] at h
    | some p' =>
      rw [hs] at h
      simp only [Option.some_bind] at h
      rw [ih p' h, step_detections p e p' hs]
      by_cases he : e.isTick = true <;> by_cases ha : es.any Event.isTick = true <;>
        simp [he, ha]

theorem step_error (p : Page) (e : Event) (q : Page)
    (hp : p.feed.error = none ∨ p.feed.error = some cameraErrorText)
    (h : p.step e = some q) :
    q.feed.error = none ∨ q.feed.error = some cameraErrorText := by
  have heff : ∀ b f, (VideoFeed.detectionEffect b f).error = f.error := by
    intro b f
    cases b <;> by_cases hc : f.cleanup = true <;>
      simp [VideoFeed.detectionEffect, VideoFeed.effectBody, VideoFeed.runCleanup, hc]
  cases e with
  | toggle =>
    simp only [Page.step, Option.some.injEq] at h
    subst h
    simpa [Page.rerender, heff] using hp
  | tick r =>
    simp only [Page.step] at h
    split_ifs at h
    simp only [Option.some.injEq] at h
    subst h
    simp only [Page.rerender, heff]
    exact hp
  | change v =>
    simp only [Page.step, Option.some.injEq] at h
    subst h
    exact hp
  | clickSend now =>
    simp only [Page.step, Option.some.injEq] at h
    subst h
    rcases applySend_feed p now (ChatInterface.handleSend p.input p.app.isStreaming) with hf | hf
    · rw [hf]; exact hp
    · rw [hf, heff]; exact hp
  | keyDown key shiftKey now =>
    simp only [Page.step] at h
    split at h
    · rename_i r _
      simp only [Option.some.injEq] at h
      subst h
      rcases applySend_feed p now r with hf | hf
      · rw [hf]; exact hp
      · rw [hf, heff]; exact hp
    · simp only [Option.some.injEq] at h
      subst h
      exact hp
  | timeout i now =>
    simp only [Page.step] at h
    split at h
    · simp only [Option.some.injEq] at h
      subst h
      simpa [Page.rerender, ReplyTimer.fire, heff] using hp
    · simp at h
  | userMedia =>
    simp only [Page.step] at h
    split_ifs at h
    simp only [Option.some.injEq] at h
    subst h
    left; rfl
  | userMediaError err =>
    simp only [Page.step] at h
    split_ifs at h
    simp only [Option.some.injEq] at h
    subst h
    right; rfl

/-! ## Lemmas on the binary64 product -/

theorem valid_iff {r : Draw} :
    r.valid = true ↔ r.mant < 2 ^ 53 ∧ 53 ≤ r.shift ∧ r.shift ≤ 1074 := by
  simp [Draw.valid, and_assoc]

/-- Rounding moves a number up by half a unit at most. -/
theorem roundShift_le (n s : Nat) : 2 * roundShift n s ≤ 2 * n + 2 ^ s := by
  have hdm : 2 ^ s * (n / 2 ^ s) + n % 2 ^ s = n := Nat.div_add_mod n (2 ^ s)
  have hc : n / 2 ^ s * 2 ^ s = 2 ^ s * (n / 2 ^ s) := Nat.mul_comm _ _
  have hs : (n / 2 ^ s + 1) * 2 ^ s = 2 ^ s * (n / 2 ^ s) + 2 ^ s := by ring
  unfold roundShift
  rw [hc, hs]
  generalize 2 ^ s * (n / 2 ^ s) = a at *
  generalize n % 2 ^ s = b at *
  generalize 2 ^ s = c at *
  split_ifs <;> omega

/-- Rounding moves a number down by half a unit at most. -/
theorem le_roundShift (n s : Nat) : 2 * n ≤ 2 * roundShift n s + 2 ^ s := by
  have hdm : 2 ^ s * (n / 2 ^ s) + n % 2 ^ s = n := Nat.div_add_mod n (2 ^ s)
  have hc : n / 2 ^ s * 2 ^ s = 2 ^ s * (n / 2 ^ s) := Nat.mul_comm _ _
  have hs : (n / 2 ^ s + 1) * 2 ^ s = 2 ^ s * (n / 2 ^ s) + 2 ^ s := by ring
  have hlt : n % 2 ^ s < 2 ^ s := Nat.mod_lt _ (by positivity)
  unfold roundShift
  rw [hc, hs]
  generalize 2 ^ s * (n / 2 ^ s) = a at *
  generalize n % 2 ^ s = b at *
  generalize 2 ^ s = c at *
  split_ifs <;> omega

theorem excessBitsAux_le (fuel n k : Nat) (h : n < 2 ^ (53 + k)) :
    excessBitsAux fuel n ≤ k := by
  induction fuel generalizing n k with
  | zero => simp [excessBitsAux]
  | succ fuel ih =>
    unfold excessBitsAux
    split_ifs with hn
    · exact Nat.zero_le k
    · cases k with
      | zero => exact absurd h hn
      | succ k =>
        have hhalf : n / 2 < 2 ^ (53 + k) := by
          rw [Nat.div_lt_iff_lt_mul (by decide)]
          have : 2 ^ (53 + (k + 1)) = 2 ^ (53 + k) * 2 := by ring
          omega
        have := ih (n / 2) k hhalf
        omega

/-- The search stops at a shift that leaves at most 53 bits. -/
theorem excessBitsAux_spec (fuel n : Nat) (h : n ≤ fuel) :
    n / 2 ^ excessBitsAux fuel n < 2 ^ 53 := by
  induction fuel generalizing n with
  | zero =>
    have : n = 0 := by omega
    subst this
    simp [excessBitsAux]
  | succ fuel ih =>
    unfold excessBitsAux
    split_ifs with hn
    · simpa using hn
    · have hbig : 2 ^ 53 ≤ n := by omega
      have h2 : 2 ≤ n := le_trans (by decide) hbig
      have hhalf : n / 2 ≤ fuel := by omega
      have := ih (n / 2) hhalf
      rw [Nat.pow_succ, Nat.mul_comm, ← Nat.div_div_eq_div_mul]
      exact this

theorem excessBits_spec (n : Nat) : n / 2 ^ excessBits n < 2 ^ 53 :=
  excessBitsAux_spec n n (Nat.le_refl n)

/-- A significand of at most 53 bits is kept as it is. -/
theorem round53_exact (n : Nat) (h : n < 2 ^ 53) : round53 n = n := by
  have hs : excessBits n = 0 := Nat.le_zero.mp (excessBitsAux_le n n 0 h)
  simp [round53, hs, roundShift, Nat.mod_one]

theorem round53_product_lt (m : Nat) (hm : m < 2 ^ 53) : round53 (m * 5) < 5 * 2 ^ 53 := by
  have hs : excessBits (m * 5) ≤ 3 := excessBitsAux_le _ _ 3 (by omega)
  have hpow : 2 ^ excessBits (m * 5) ≤ 2 ^ 3 := Nat.pow_le_pow_right (by decide) hs
  have hle := roundShift_le (m * 5) (excessBits (m * 5))
  unfold round53
  omega

theorem mockFps_bounds (r : Draw) (hr : r.valid = true) :
    25 ≤ VideoFeed.mockFps r ∧ VideoFeed.mockFps r ≤ 29 := by
  obtain ⟨hm, hs, _⟩ := valid_iff.mp hr
  have hlt := round53_product_lt r.mant hm
  have hpow : 2 ^ 53 ≤ 2 ^ r.shift := Nat.pow_le_pow_right (by decide) hs
  have hdiv : round53 (r.mant * 5) / 2 ^ r.shift < 5 := by
    rw [Nat.div_lt_iff_lt_mul (by positivity)]
    calc round53 (r.mant * 5) < 5 * 2 ^ 53 := hlt
      _ ≤ 5 * 2 ^ r.shift := Nat.mul_le_mul_left 5 hpow
  unfold VideoFeed.mockFps
  obtain ⟨k, hk⟩ : ∃ k, k = round53 (r.mant * 5) / 2 ^ r.shift := ⟨_, rfl⟩
  rw [← hk] at hdiv ⊢
  omega

/-! ## The claims -/

/-- C1: the synchronous state update of `handleNewMessage(message)` yields the
previous message list followed by exactly one new element, with role 'user' and
content `message` verbatim; the earlier messages are kept unchanged and in
order, and no other cell of `App` changes. -/
theorem handleNewMessage_appends_user_message (s : AppState) (message now : String) :
    (App.handleNewMessage s message now).1.messages =
      s.messages ++ [{ role := "user", content := message, timestamp := now }] ∧
    (App.handleNewMessage s message now).1.messages.length = s.messages.length + 1 ∧
    (App.handleNewMessage s message now).1.messages.take s.messages.length = s.messages ∧
    (App.handleNewMessage s message now).1.isStreaming = s.isStreaming ∧
    (App.handleNewMessage s message now).1.isConnected = s.isConnected ∧
    (App.handleNewMessage s message now).1.detections = s.detections ∧
    (App.handleNewMessage s message now).1.fps = s.fps := by
  simp [App.handleNewMessage]

/-- C2: when the timer scheduled by `handleNewMessage(m)` in state `s` fires in
any later state, it appends exactly one message, with role 'assistant' and
content 'I can see N objects in the frame. The main items are: person, laptop,
and cup.' where N is the length of `s.detections` (the list at the call, not at
the firing); the timer, hence the reply, is the same for any two messages sent
in the same state. -/
theorem assistant_reply_is_canned (s : AppState) (m now : String) (later : AppState)
    (now' : String) :
    ((App.handleNewMessage s m now).2.fire later now').messages =
      later.messages ++
        [{ role := "assistant"
           content := "I can see " ++ toString s.detections.length ++
             " objects in the frame. The main items are: person, laptop, and cup."
           timestamp := now' }] ∧
    (∀ m' now₂, (App.handleNewMessage s m' now₂).2 = (App.handleNewMessage s m now).2) ∧
    (∀ m' now₂, (App.handleNewMessage s m' now₂).2.fire later now' =
      (App.handleNewMessage s m now).2.fire later now') := by
  simp [App.handleNewMessage, ReplyTimer.fire, replyContent]

/-- C3: `handleToggleStream` sets `isStreaming` to its negation and
`isConnected` to that same new value, and leaves `messages`, `detections` and
`fps` unchanged; `isConnected` equals `isStreaming` in every reachable state of
the page and after every sequence of handler calls on the initial state of
`App`; toggling twice restores `isStreaming`, and restores the whole state
where the two flags agree, as they do in every reachable state. -/
theorem toggle_stream_flags :
    (∀ s : AppState,
      (App.handleToggleStream s).isStreaming = (!s.isStreaming) ∧
      (App.handleToggleStream s).isConnected = (App.handleToggleStream s).isStreaming ∧
      (App.handleToggleStream s).messages = s.messages ∧
      (App.handleToggleStream s).detections = s.detections ∧
      (App.handleToggleStream s).fps = s.fps) ∧
    (∀ p, Reachable p → p.app.isConnected = p.app.isStreaming) ∧
    (∀ now cs, (App.calls (App.init now) cs).isConnected =
      (App.calls (App.init now) cs).isStreaming) ∧
    (∀ s : AppState,
      (App.handleToggleStream (App.handleToggleStream s)).isStreaming = s.isStreaming) ∧
    (∀ p, Reachable p → App.handleToggleStream (App.handleToggleStream p.app) = p.app) := by
  have hinv : ∀ p, Reachable p → p.app.isConnected = p.app.isStreaming :=
    reachable_induction (fun p => p.app.isConnected = p.app.isStreaming)
      (fun _ => rfl) step_connected
  refine ⟨?_, hinv, ?_, ?_, ?_⟩
  · intro s; simp [App.handleToggleStream]
  · intro now cs; exact calls_connected cs _ rfl
  · intro s; simp [App.handleToggleStream]
  · intro p hp
    have h := hinv p hp
    cases hp' : p.app with
    | mk st ms ds cn fps =>
      rw [hp'] at h
      simp only at h
      simp [App.handleToggleStream, h]

/-- Witness of C3: after one click on the toggle button both flags are true,
and two more toggles give the same state back. -/
theorem toggle_stream_flags_witness :
    Reachable (({ Page.init "t" with app := App.handleToggleStream (Page.init "t").app }).rerender) ∧
    (({ Page.init "t" with
        app := App.handleToggleStream (Page.init "t").app }).rerender).app.isConnected = true ∧
    (({ Page.init "t" with
        app := App.handleToggleStream (Page.init "t").app }).rerender).app.isStreaming = true :=
  have hr : Reachable
      (({ Page.init "t" with app := App.handleToggleStream (Page.init "t").app }).rerender) :=
    reachable_step Event.toggle (reachable_init "t") rfl
  ⟨hr, by rw [toggle_stream_flags.2.1 _ hr]; decide, by decide⟩

/-- Counterexample to C4 as stated: with input text "hi" and an empty message
list, `handleSend` calls `onSendMessage`, appends a message and clears the input
when `isStreaming` is true, and does nothing when it is false. -/
theorem handleSend_depends_on_streaming :
    chatAfterSend (hiPage.withStreaming true) "t" ≠
      chatAfterSend (hiPage.withStreaming false) "t" := by
  decide

/-- C4, amended: the streaming flag also gates sending. With `isStreaming`
false `handleSend` never calls `onSendMessage` and leaves the message list and
the input text as they are; its effect is the same for both values of the flag
when the input is empty or white space only; and for any other input, with
`isStreaming` true, it calls `onSendMessage`, the message list gains the user
message and the input text becomes empty. -/
theorem handleSend_streaming_gate (p : Page) (now : String) :
    chatAfterSend (p.withStreaming false) now = (false, p.app.messages, p.input) ∧
    (jsTrim p.input = "" →
      chatAfterSend (p.withStreaming true) now = chatAfterSend (p.withStreaming false) now) ∧
    (jsTrim p.input ≠ "" →
      chatAfterSend (p.withStreaming true) now =
        (true, p.app.messages ++ [{ role := "user", content := p.input, timestamp := now }],
          "")) := by
  refine ⟨?_, ?_, ?_⟩
  · simp [chatAfterSend, Page.withStreaming, handleSend_off, Page.applySend]
  · intro h
    simp [chatAfterSend, Page.withStreaming, handleSend_blank _ _ h, Page.applySend]
  · intro h
    simp [chatAfterSend, Page.withStreaming, handleSend_on _ h, Page.applySend,
      Page.onSendMessage, Page.rerender, App.handleNewMessage]

/-- Witness of C4, amended, at the page with input "hi": the input is not
blank, and sending while streaming appends the message. -/
theorem handleSend_streaming_gate_witness :
    jsTrim hiPage.input ≠ "" ∧
    chatAfterSend (hiPage.withStreaming true) "t" =
      (true, [{ role := "user", content := "hi", timestamp := "t" }], "") :=
  ⟨by decide, (handleSend_streaming_gate hiPage "t").2.2 (by decide)⟩

/-- C5: a run of the detection effect with `isStreaming` false empties
`mockDetections`, installs no interval and registers no cleanup; the interval
installed by a run with `isStreaming` true is cleared by the next run of the
effect; so in every reachable state with `isStreaming` false there is no live
interval, no tick can happen, and `mockDetections` is empty; and a tick that
happens in a reachable state happens while streaming. -/
theorem mock_timer_gated_by_streaming :
    (∀ f : FeedState,
      (VideoFeed.detectionEffect false f).mockDetections = [] ∧
      (VideoFeed.effectBody false f).liveIntervals = f.liveIntervals ∧
      (VideoFeed.effectBody false f).cleanup = false ∧
      (VideoFeed.detectionEffect false f).liveIntervals ≤ f.liveIntervals) ∧
    (∀ f : FeedState,
      (VideoFeed.effectBody true f).liveIntervals = f.liveIntervals + 1 ∧
      (VideoFeed.detectionEffect false (VideoFeed.effectBody true f)).liveIntervals =
        f.liveIntervals) ∧
    (∀ p, Reachable p → p.app.isStreaming = false →
      p.feed.liveIntervals = 0 ∧ p.feed.mockDetections = [] ∧
      ∀ r, p.step (Event.tick r) = none) ∧
    (∀ p r q, Reachable p → p.step (Event.tick r) = some q → p.app.isStreaming = true) := by
  have hoff : ∀ p, Reachable p → p.app.isStreaming = false →
      p.feed.liveIntervals = 0 ∧ p.feed.mockDetections = [] ∧
      ∀ r, p.step (Event.tick r) = none := by
    intro p hp hs
    obtain ⟨_, hl, hm⟩ := reachable_gated p hp
    rw [hs] at hl
    simp only [Bool.false_eq_true, if_false] at hl
    exact ⟨hl, hm hs, fun r => by simp [Page.step, hl]⟩
  refine ⟨?_, ?_, hoff, ?_⟩
  · intro f
    by_cases hc : f.cleanup = true <;>
      simp [VideoFeed.detectionEffect, VideoFeed.effectBody, VideoFeed.runCleanup, hc]
  · intro f
    simp [VideoFeed.detectionEffect, VideoFeed.effectBody, VideoFeed.runCleanup]
  · intro p r q hp hstep
    by_contra hs
    have hs' : p.app.isStreaming = false := by simpa using hs
    rw [(hoff p hp hs').2.2 r] at hstep
    exact Option.noConfusion hstep

/-- Witness of C5: right after mounting the page is not streaming, and a tick
with draw 0.5 cannot happen. -/
theorem mock_timer_gated_by_streaming_witness :
    Reachable (Page.init "t") ∧ (Page.init "t").app.isStreaming = false ∧
    (Page.init "t").step (Event.tick Draw.half) = none :=
  ⟨reachable_init "t", rfl,
    (mock_timer_gated_by_streaming.2.2.1 (Page.init "t") (reachable_init "t") rfl).2.2 Draw.half⟩

/-- C6: for every draw `r` and every prior state, one run of the interval
callback sets `mockDetections` to, and hands to `onDetections`, the fixed list
person (0.95, 100,80,200,300, #3b82f6), laptop (0.87, 350,250,180,120, #10b981),
cup (0.78, 500,200,60,80, #f59e0b); apart from the FPS value, which is the
floor of the binary64 product of `r` and 5, plus 25, the result is the same
for any two draws; and the same
lists are in place after a tick of the page in a reachable state. -/
theorem tick_detections_hard_coded :
    (∀ (r : Draw) (f : FeedState) (a : AppState),
      (VideoFeed.intervalCallback r f a).1.mockDetections =
        [ { label := "person", confidence := 0.95,
            bbox := { x := 100, y := 80, width := 200, height := 300 }, color := "#3b82f6" },
          { label := "laptop", confidence := 0.87,
            bbox := { x := 350, y := 250, width := 180, height := 120 }, color := "#10b981" },
          { label := "cup", confidence := 0.78,
            bbox := { x := 500, y := 200, width := 60, height := 80 }, color := "#f59e0b" } ] ∧
      (VideoFeed.intervalCallback r f a).2.detections =
        (VideoFeed.intervalCallback r f a).1.mockDetections ∧
      (VideoFeed.intervalCallback r f a).2.fps =
        ((round53 (r.mant * 5) / 2 ^ r.shift : Nat) : Int) + 25 ∧
      (VideoFeed.intervalCallback r f a).2 =
        { a with detections := (VideoFeed.intervalCallback r f a).1.mockDetections,
                 fps := ((round53 (r.mant * 5) / 2 ^ r.shift : Nat) : Int) + 25 } ∧
      ∀ r' : Draw,
        (VideoFeed.intervalCallback r' f a).1 = (VideoFeed.intervalCallback r f a).1 ∧
        App.setFps (VideoFeed.intervalCallback r' f a).2 0 =
          App.setFps (VideoFeed.intervalCallback r f a).2 0) ∧
    (∀ p r q, Reachable p → p.step (Event.tick r) = some q →
      q.feed.mockDetections = VideoFeed.detections ∧
      q.app.detections = VideoFeed.detections ∧ q.app.fps = VideoFeed.mockFps r) := by
  refine ⟨?_, ?_⟩
  · intro r f a
    simp [VideoFeed.intervalCallback, VideoFeed.detections, App.setFps, App.handleDetections,
      VideoFeed.mockFps]
  · intro p r q hp hstep
    obtain ⟨hc, hl, _⟩ := reachable_gated p hp
    have hs : p.app.isStreaming = true := by
      by_contra hs
      have hs' : p.app.isStreaming = false := by simpa using hs
      rw [hs'] at hl
      simp [Page.step, hl] at hstep
    simp only [Page.step] at hstep
    split_ifs at hstep
    simp only [Option.some.injEq] at hstep
    subst hstep
    simp [Page.rerender, VideoFeed.intervalCallback, App.setFps, App.handleDetections,
      VideoFeed.detectionEffect, VideoFeed.effectBody, VideoFeed.runCleanup, hs]
    split_ifs <;> rfl

/-- Witness of C6: the tick with draw 0.5 of the streaming page leaves the
three hard-coded records in `App` and an FPS of 27. -/
theorem tick_detections_hard_coded_witness :
    Reachable streamingPage ∧ streamingPage.step (Event.tick Draw.half) = some tickedPage ∧
    tickedPage.app.detections = VideoFeed.detections ∧
    tickedPage.app.fps = VideoFeed.mockFps Draw.half :=
  have hr : Reachable streamingPage := reachable_step Event.toggle (reachable_init "t") rfl
  have hs : streamingPage.step (Event.tick Draw.half) = some tickedPage := by decide!
  ⟨hr, hs, (tick_detections_hard_coded.2 streamingPage Draw.half tickedPage hr hs).2.1,
    (tick_detections_hard_coded.2 streamingPage Draw.half tickedPage hr hs).2.2⟩

/-- C7, as the code has it: every draw is a number `r` with `0 ≤ r < 1`, and
for every draw the value `floor(r * 5) + 25`, with the product rounded to
binary64, lies between 25 and 29; each of 25, ..., 29 is produced by some draw
(0, 0.25, 0.5, 0.75 and the largest draw `1 - 2 ^ -53`); at the draw 0.6 the
product rounds up to 3 and the value is 28; and 30 is produced by no draw. -/
theorem mockFps_range :
    (∀ r : Draw, r.valid = true → 0 ≤ r.value ∧ r.value < 1) ∧
    (∀ r : Draw, r.valid = true → 25 ≤ VideoFeed.mockFps r ∧ VideoFeed.mockFps r ≤ 29) ∧
    (VideoFeed.mockFps { mant := 0, shift := 53 } = 25 ∧
      VideoFeed.mockFps { mant := 2 ^ 51, shift := 53 } = 26 ∧
      VideoFeed.mockFps { mant := 2 ^ 52, shift := 53 } = 27 ∧
      VideoFeed.mockFps { mant := 3 * 2 ^ 51, shift := 53 } = 28 ∧
      VideoFeed.mockFps { mant := 2 ^ 53 - 1, shift := 53 } = 29) ∧
    (Draw.valid { mant := 5404319552844595, shift := 53 } = true ∧
      ⌊Draw.value { mant := 5404319552844595, shift := 53 } * 5⌋ = 2 ∧
      VideoFeed.mockFps { mant := 5404319552844595, shift := 53 } = 28) ∧
    ¬ ∃ r : Draw, r.valid = true ∧ VideoFeed.mockFps r = 30 := by
  refine ⟨?_, mockFps_bounds, ?_, ?_, ?_⟩
  · intro r hr
    obtain ⟨hm, hs, _⟩ := valid_iff.mp hr
    unfold Draw.value
    have hpos : (0 : ℚ) < 2 ^ r.shift := by positivity
    refine ⟨by positivity, ?_⟩
    rw [div_lt_one hpos]
    have h1 : (r.mant : ℚ) < 2 ^ 53 := by exact_mod_cast hm
    have h2 : (2 : ℚ) ^ 53 ≤ 2 ^ r.shift := pow_le_pow_right₀ (by norm_num) hs
    linarith
  · refine ⟨?_, ?_, ?_, ?_, ?_⟩ <;> decide!
  · refine ⟨by decide, ?_, by decide!⟩
    rw [Int.floor_eq_iff]
    unfold Draw.value
    norm_num
  · rintro ⟨r, hr, h30⟩
    have := (mockFps_bounds r hr).2
    omega

/-- Witness of C7: the largest draw, `1 - 2 ^ -53`, gives 29, the largest
value there is. -/
theorem mockFps_range_witness :
    Draw.valid { mant := 2 ^ 53 - 1, shift := 53 } = true ∧
    VideoFeed.mockFps { mant := 2 ^ 53 - 1, shift := 53 } ≤ 29 :=
  ⟨by decide, (mockFps_range.2.1 { mant := 2 ^ 53 - 1, shift := 53 } (by decide)).2⟩

/-- C8: after any sequence of handler calls on the initial state, `detections`
is the list passed to the most recent `handleDetections` call (empty if there
was none); `handleDetections` replaces the stored list; `handleToggleStream`
and `handleNewMessage` leave it as it is; and on the page the count handed to
`ControlPanel` and `StatusIndicator` is 0 while no tick has happened and 3 once
one has. -/
theorem detections_hold_last_batch :
    (∀ now cs, (App.calls (App.init now) cs).detections = lastBatch cs) ∧
    (∀ s d, App.handleDetections s d = { s with detections := d }) ∧
    (∀ s d d', (App.handleDetections (App.handleDetections s d) d').detections = d') ∧
    (∀ s, (App.handleToggleStream s).detections = s.detections) ∧
    (∀ s m now, (App.handleNewMessage s m now).1.detections = s.detections) ∧
    (∀ now es p, (Page.init now).run es = some p →
      App.detectionCount p.app = (if es.any Event.isTick = true then 3 else 0) ∧
      App.statusDetections p.app = (if es.any Event.isTick = true then 3 else 0)) := by
  refine ⟨?_, ?_, ?_, ?_, ?_, ?_⟩
  · intro now cs
    rw [calls_detections]
    rfl
  · intro s d; rfl
  · intro s d d'; rfl
  · intro s; rfl
  · intro s m now; rfl
  · intro now es p h
    have hd := run_detections es _ p h
    unfold App.detectionCount App.statusDetections
    rw [hd]
    by_cases ha : es.any Event.isTick = true
    · simp [ha, VideoFeed.detections]
    · simp [ha, Page.init, App.init]

/-- Witness of C8: toggle then a tick with draw 0.5 leads to a page whose
detection count is 3. -/
theorem detections_hold_last_batch_witness :
    (Page.init "t").run [Event.toggle, Event.tick Draw.half] = some tickedPage ∧
    App.detectionCount tickedPage.app = 3 :=
  have hrun : (Page.init "t").run [Event.toggle, Event.tick Draw.half] = some tickedPage := by
    decide!
  ⟨hrun, (detections_hold_last_batch.2.2.2.2.2 "t" _ tickedPage hrun).1⟩

/-- C9: `handleUserMediaError(err)` stores the fixed text 'Unable to access
camera. Please check permissions.' whatever `err` is, and `handleUserMedia`
stores null; the view is the 'Camera is off' panel whenever `isStreaming` is
false, whatever the error cell holds; the error cell of a reachable page holds
null or the fixed text, and for such a cell the view is the 'Camera is off'
panel exactly when `isStreaming` is false, the 'Camera Error' panel exactly when
`isStreaming` is true and the cell is not null, and the webcam feed exactly when
`isStreaming` is true and the cell is null. -/
theorem camera_error_single_branch :
    (∀ err f, (VideoFeed.handleUserMediaError err f).error =
        some "Unable to access camera. Please check permissions." ∧
      (VideoFeed.handleUserMediaError err f).mockDetections = f.mockDetections ∧
      (VideoFeed.handleUserMediaError err f).liveIntervals = f.liveIntervals) ∧
    (∀ f, (VideoFeed.handleUserMedia f).error = none) ∧
    (∀ f, VideoFeed.render false f = View.cameraOff) ∧
    (∀ p, Reachable p → p.feed.error = none ∨ p.feed.error = some cameraErrorText) ∧
    (∀ b f, f.error = none ∨ f.error = some cameraErrorText →
      (VideoFeed.render b f = View.cameraOff ↔ b = false) ∧
      (VideoFeed.render b f = View.cameraError cameraErrorText ↔
        b = true ∧ f.error ≠ none) ∧
      ((∃ t, VideoFeed.render b f = View.cameraError t) ↔ b = true ∧ f.error ≠ none) ∧
      ((∃ o, VideoFeed.render b f = View.webcam o) ↔ b = true ∧ f.error = none)) := by
  refine ⟨?_, ?_, ?_, ?_, ?_⟩
  · intro err f; exact ⟨rfl, rfl, rfl⟩
  · intro f; rfl
  · intro f; rfl
  · exact reachable_induction
      (fun p => p.feed.error = none ∨ p.feed.error = some cameraErrorText)
      (fun _ => Or.inl rfl) step_error
  · intro b f hf
    have htext : (cameraErrorText != "") = true := by decide
    cases b <;> rcases hf with hf | hf <;>
      simp [VideoFeed.render, hf, truthy, htext]

/-- Witness of C9: the streaming page after a camera failure shows the error
panel with the fixed text. -/
theorem camera_error_single_branch_witness :
    (VideoFeed.handleUserMediaError "NotAllowedError" streamingPage.feed).error =
      some cameraErrorText ∧
    VideoFeed.render true (VideoFeed.handleUserMediaError "NotAllowedError" streamingPage.feed) =
      View.cameraError cameraErrorText :=
  ⟨rfl, ((camera_error_single_branch.2.2.2.2 true
    (VideoFeed.handleUserMediaError "NotAllowedError" streamingPage.feed)
    (Or.inr rfl)).2.1).mpr ⟨rfl, by decide⟩⟩

/-- C10: `handleSend` calls `onSendMessage` if and only if the input has a
character that is not white space and `isStreaming` is true; then it calls it
exactly once, with the input as typed, and the input becomes the empty string;
otherwise it makes no call, keeps the input text, and the click leaves the
whole page, message list included, as it is; the send button is disabled
exactly when no call would be made. `handleKeyPress` runs `handleSend` exactly
when the key is 'Enter' and shift is not held. -/
theorem handleSend_sends_iff (input : String) (isStreaming : Bool) :
    ((ChatInterface.handleSend input isStreaming).calls ≠ [] ↔
      (∃ c ∈ input.data, isWhiteSpace c = false) ∧ isStreaming = true) ∧
    ((∃ c ∈ input.data, isWhiteSpace c = false) ∧ isStreaming = true →
      ChatInterface.handleSend input isStreaming = { calls := [input], input := "" }) ∧
    (¬((∃ c ∈ input.data, isWhiteSpace c = false) ∧ isStreaming = true) →
      ChatInterface.handleSend input isStreaming = { calls := [], input := input } ∧
      ∀ (p : Page) (now : String), p.input = input → p.app.isStreaming = isStreaming →
        p.step (Event.clickSend now) = some p) ∧
    (ChatInterface.sendDisabled input isStreaming = true ↔
      (ChatInterface.handleSend input isStreaming).calls = []) ∧
    (∀ key shiftKey,
      ((ChatInterface.handleKeyPress key shiftKey input isStreaming).send =
          some (ChatInterface.handleSend input isStreaming) ↔
        key = "Enter" ∧ shiftKey = false) ∧
      (¬(key = "Enter" ∧ shiftKey = false) →
        (ChatInterface.handleKeyPress key shiftKey input isStreaming).send = none)) := by
  rw [← jsTrim_ne_empty_iff]
  refine ⟨?_, ?_, ?_, ?_, ?_⟩
  · by_cases ht : jsTrim input = "" <;> cases isStreaming <;>
      simp [ChatInterface.handleSend, ht]
  · rintro ⟨ht, hs⟩
    subst hs
    exact handleSend_on input ht
  · intro hno
    have hres : ChatInterface.handleSend input isStreaming = { calls := [], input := input } := by
      by_cases ht : jsTrim input = ""
      · exact handleSend_blank input isStreaming ht
      · cases isStreaming
        · exact handleSend_off input
        · exact absurd ⟨ht, rfl⟩ hno
    refine ⟨hres, ?_⟩
    intro p now hin hst
    subst hin hst
    simp only [Page.step]
    rw [hres, applySend_nil]
  · by_cases ht : jsTrim input = "" <;> cases isStreaming <;>
      simp [ChatInterface.handleSend, ChatInterface.sendDisabled, ht]
  · intro key shiftKey
    by_cases hk : key = "Enter" <;> cases shiftKey <;>
      simp [ChatInterface.handleKeyPress, hk]

/-- Witness of C10: the input " hi " is sent untrimmed while streaming. -/
theorem handleSend_sends_iff_witness :
    ((∃ c ∈ " hi ".data, isWhiteSpace c = false) ∧ true = true) ∧
    ChatInterface.handleSend " hi " true = { calls := [" hi "], input := "" } :=
  ⟨⟨⟨'h', by decide, by decide⟩, rfl⟩,
    (handleSend_sends_iff " hi " true).2.1 ⟨⟨'h', by decide, by decide⟩, rfl⟩⟩

/-! ## The camera error -/

theorem webcamShown_of_error (p : Page) (he : p.feed.error = some cameraErrorText) :
    p.webcamShown = false := by
  have htext : (cameraErrorText != "") = true := by decide
  cases hs : p.app.isStreaming <;>
    simp [Page.webcamShown, VideoFeed.render, hs, he, truthy, htext]

theorem step_error_stays (p : Page) (e : Event) (q : Page)
    (he : p.feed.error = some cameraErrorText) (h : p.step e = some q) :
    q.feed.error = some cameraErrorText := by
  have heff : ∀ b f, (VideoFeed.detectionEffect b f).error = f.error := by
    intro b f
    cases b <;> by_cases hc : f.cleanup = true <;>
      simp [VideoFeed.detectionEffect, VideoFeed.effectBody, VideoFeed.runCleanup, hc]
  cases e with
  | toggle =>
    simp only [Page.step, Option.some.injEq] at h
    subst h
    simpa [Page.rerender, heff] using he
  | tick r =>
    simp only [Page.step] at h
    split_ifs at h
    simp only [Option.some.injEq] at h
    subst h
    simp only [Page.rerender, heff]
    exact he
  | change v =>
    simp only [Page.step, Option.some.injEq] at h
    subst h
    exact he
  | clickSend now =>
    simp only [Page.step, Option.some.injEq] at h
    subst h
    rcases applySend_feed p now (ChatInterface.handleSend p.input p.app.isStreaming) with hf | hf
    · rw [hf]; exact he
    · rw [hf, heff]; exact he
  | keyDown key shiftKey now =>
    simp only [Page.step] at h
    split at h
    · rename_i r _
      simp only [Option.some.injEq] at h
      subst h
      rcases applySend_feed p now r with hf | hf
      · rw [hf]; exact he
      · rw [hf, heff]; exact he
    · simp only [Option.some.injEq] at h
      subst h
      exact he
  | timeout i now =>
    simp only [Page.step] at h
    split at h
    · simp only [Option.some.injEq] at h
      subst h
      simpa [Page.rerender, ReplyTimer.fire, heff] using he
    · simp at h
  | userMedia =>
    simp [Page.step, webcamShown_of_error p he] at h
  | userMediaError err =>
    simp [Page.step, webcamShown_of_error p he] at h

theorem run_error_stays (es : List Event) (p q : Page)
    (he : p.feed.error = some cameraErrorText) (h : p.run es = some q) :
    q.feed.error = some cameraErrorText := by
  induction es generalizing p with
  | nil =>
    simp only [Page.run, Option.some.injEq] at h
    exact h ▸ he
  | cons e es ih =>
    simp only [Page.run] at h
    cases hs : p.step e with
    | none => simp [hs] at h
    | some p' =>
      rw [hs] at h
      exact ih p' (step_error_stays p e p' he hs) h

/-- C11: on a reachable page the `Webcam` element, hence `handleUserMedia` and
`handleUserMediaError`, is available exactly when `isStreaming` is true and the
error cell is null; once the error cell of a reachable page is not null,
`handleUserMedia` cannot run, and after every sequence of events the cell still
holds the same non-null value and the view is not the webcam feed; in
particular stopping and restarting the camera is always possible and leaves the
error in place. -/
theorem camera_error_absorbing :
    (∀ p, Reachable p →
      (p.webcamShown = true ↔ p.app.isStreaming = true ∧ p.feed.error = none)) ∧
    (∀ p, Reachable p → p.feed.error ≠ none →
      p.step Event.userMedia = none ∧
      ∀ es q, p.run es = some q →
        q.feed.error ≠ none ∧ q.feed.error = p.feed.error ∧
        (∀ o, VideoFeed.render q.app.isStreaming q.feed ≠ View.webcam o) ∧
        q.step Event.userMedia = none) ∧
    (∀ p, Reachable p → p.feed.error ≠ none →
      ∃ q, p.run [Event.toggle, Event.toggle] = some q ∧
        q.app.isStreaming = p.app.isStreaming ∧ q.feed.error = p.feed.error) := by
  have hinv : ∀ p, Reachable p →
      p.feed.error = none ∨ p.feed.error = some cameraErrorText :=
    reachable_induction
      (fun p => p.feed.error = none ∨ p.feed.error = some cameraErrorText)
      (fun _ => Or.inl rfl) step_error
  have htext : (cameraErrorText != "") = true := by decide
  have hset : ∀ p, Reachable p → p.feed.error ≠ none →
      p.feed.error = some cameraErrorText := by
    intro p hp he
    rcases hinv p hp with h | h
    · exact absurd h he
    · exact h
  refine ⟨?_, ?_, ?_⟩
  · intro p hp
    rcases hinv p hp with h | h <;> cases hs : p.app.isStreaming <;>
      simp [Page.webcamShown, VideoFeed.render, hs, h, truthy, htext]
  · intro p hp he
    have hp' := hset p hp he
    refine ⟨by simp [Page.step, webcamShown_of_error p hp'], ?_⟩
    intro es q hrun
    have hq := run_error_stays es p q hp' hrun
    refine ⟨by simp [hq], by rw [hq, hp'], ?_, by simp [Page.step, webcamShown_of_error q hq]⟩
    intro o
    cases hs : q.app.isStreaming <;> simp [VideoFeed.render, hq, truthy, htext]
  · intro p hp he
    have hp' := hset p hp he
    refine ⟨_, rfl, ?_, ?_⟩
    · simp [Page.rerender, App.handleToggleStream]
    · have hrun : p.run [Event.toggle, Event.toggle] =
          some (({ ({ p with app := App.handleToggleStream p.app }).rerender with
            app := App.handleToggleStream
              ({ p with app := App.handleToggleStream p.app }).rerender.app }).rerender) := rfl
      rw [run_error_stays _ p _ hp' hrun, hp']

/-- Witness of C11: after a camera failure on the streaming page, stopping and
restarting the camera leaves the error in place and the error panel on screen. -/
theorem camera_error_absorbing_witness :
    Reachable failedPage ∧ failedPage.feed.error ≠ none ∧
    failedPage.run [Event.toggle, Event.toggle] = some restartedPage ∧
    restartedPage.app.isStreaming = true ∧
    restartedPage.feed.error ≠ none ∧
    restartedPage.step Event.userMedia = none :=
  have hr : Reachable failedPage :=
    reachable_step (Event.userMediaError "NotAllowedError")
      (reachable_step Event.toggle (reachable_init "t") rfl) (by decide)
  have he : failedPage.feed.error ≠ none := by decide
  have hrun : failedPage.run [Event.toggle, Event.toggle] = some restartedPage := by decide
  ⟨hr, he, hrun, by decide,
    ((camera_error_absorbing.2.1 failedPage hr he).2 _ restartedPage hrun).1,
    ((camera_error_absorbing.2.1 failedPage hr he).2 _ restartedPage hrun).2.2.2⟩

end VisionGPT
